import Mathlib

/-!
Verification development for the `arl` research-workflow backend.

The definitions below are a shallow embedding of the task-orchestration core:

* `app/services/session_orchestrator.py` — `AgentTask`, `_plan_research_tasks`,
  `_execute_tasks`, `_execute_task`, `_resolve_placeholders`,
  `execute_research_workflow`;
* `app/services/a2a_client.py` — `A2AAgentClient.initialize`,
  `A2AAgentClient.call_skill`, `A2AAgentClient._get_stub_response`;
* `app/api/endpoints/sessions.py` — `create_session_memory`.

Modelling conventions:

* JSON-like Python values are the inductive type `Val`.  Python `None` is
  represented by `Option.none` at the points where the source can produce it
  (dict `.get` misses, failed attribute lookups); `Val` itself has no null
  constructor, so a stored value is never conflated with a miss.
* Python dicts over string keys are association lists `List (String × Val)`
  with first-match lookup (`assocGet`) and in-place update (`dictSet`),
  matching dict insertion-order semantics.
* Python string operations used by the resolver (`startswith`, `endswith`,
  slicing `[2:-2]`, `strip`, `split "."`) are implemented structurally over
  `List Char` so that concrete runs reduce inside the kernel.
* `async` calls are pure: the agent invocation performed by
  `execute_single_agent` is a parameter
  `call : AgentTask → List (String × Val) → Except String Val`
  (`Except.error` models a raised exception, which `asyncio.gather` with
  `return_exceptions=True` hands back as a value).
* Decimal literals appearing in stub payloads are carried exactly as
  (mantissa, power-of-ten) pairs; the source never computes with them.
-/

/-- JSON-like Python value (the universe of agent inputs and outputs). -/
inductive Val where
  | str (s : String)
  | num (n : Int)
  | float (mantissa : Int) (exp10 : Nat)
  | bool (b : Bool)
  | dict (fields : List (String × Val))
  | arr (items : List Val)

/-- First-match lookup in a string-keyed association list (Python `dict.get`). -/
def assocGet {α : Type} : List (String × α) → String → Option α
  | [], _ => Option.none
  | (k', v) :: rest, k => if k' == k then some v else assocGet rest k

/-- Python `d[k] = v`: replace the value in place if the key exists, else append. -/
def dictSet {α : Type} (m : List (String × α)) (k : String) (v : α) : List (String × α) :=
  if m.any (fun p => p.1 == k) then
    m.map (fun p => if p.1 == k then (k, v) else p)
  else
    m ++ [(k, v)]

/-- Python `s.startswith(pre)`. -/
def pyStartsWith (s pre : String) : Bool :=
  s.data.take pre.data.length == pre.data

/-- Python `s.endswith(suf)`. -/
def pyEndsWith (s suf : String) : Bool :=
  s.data.reverse.take suf.data.length == suf.data.reverse

/-- Python slice `s[2:-2]` on the character list. -/
def sliceTwoToMinusTwo (l : List Char) : List Char :=
  (l.drop 2).take (l.length - 4)

/-- Whitespace stripped by Python `str.strip()`. -/
def isPySpace (c : Char) : Bool :=
  c == ' ' || c == '\t' || c == '\n' || c == '\r' || c == '\x0b' || c == '\x0c'

/-- Python `str.strip()` on the character list. -/
def pyStripChars (l : List Char) : List Char :=
  ((l.dropWhile isPySpace).reverse.dropWhile isPySpace).reverse

/-- Python `str.split(c)` for a one-character separator (always nonempty). -/
def splitOnChar (c : Char) : List Char → List (List Char)
  | [] => [[]]
  | x :: xs =>
    match splitOnChar c xs with
    | h :: t => if x == c then [] :: h :: t else (x :: h) :: t
    | [] => if x == c then [[], []] else [[x]]

/-- The resolver's placeholder test: `value.startswith("{{") and value.endswith("}}")`. -/
def isPlaceholder (s : String) : Bool :=
  pyStartsWith s "\x7b\x7b" && pyEndsWith s "\x7d\x7d"

/-- The reference path of a placeholder: `value[2:-2].strip().split(".")`. -/
def refParts (s : String) : List String :=
  (splitOnChar '.' (pyStripChars (sliceTwoToMinusTwo s.data))).map String.mk

/-- The navigation loop of `_resolve_placeholders`: starting from the result
map, follow each path segment; a `dict` is entered with `.get`, anything else
(including an earlier miss) yields `None` via `getattr(current, part, None)`
(no `Val` carries the attribute names used by the planner's paths). -/
def navigate : Option Val → List String → Option Val
  | cur, [] => cur
  | some (Val.dict m), p :: ps => navigate (assocGet m p) ps
  | _, _ :: ps => navigate Option.none ps

/-- Per-value body of the `_resolve_placeholders` loop: placeholder strings are
replaced by the navigated value when navigation produced one, and by the
original literal text otherwise; every other value passes through. -/
def resolveValue (results : List (String × Val)) (v : Val) : Val :=
  match v with
  | Val.str s =>
    if isPlaceholder s then
      match navigate (some (Val.dict results)) (refParts s) with
      | some c => c
      | Option.none => Val.str s
    else Val.str s
  | other => other

/-- `SessionOrchestrator._resolve_placeholders(input_data, results)`. -/
def resolve_placeholders (input_data results : List (String × Val)) : List (String × Val) :=
  input_data.map (fun kv => (kv.1, resolveValue results kv.2))

/-- `AgentTask.__init__` (`session_orchestrator.py`): the mutable
status/result/error/timestamp fields are represented by the executor's
outcome log rather than stored here. -/
structure AgentTask where
  task_id : String
  agent_id : String
  agent_name : String
  skill_name : String
  input_data : List (String × Val)
  depends_on : List String

/-- Terminal outcome recorded for a settled task by `_execute_tasks`
(`task.status` together with `task.result` / `task.error`). -/
inductive TaskOutcome where
  | completed (result : Val)
  | failed (error : String)

/-- The task status string a settled task carries. -/
def outcomeTag : TaskOutcome → String
  | TaskOutcome.completed _ => "completed"
  | TaskOutcome.failed _ => "failed"

/-- The mutable state threaded through the `_execute_tasks` loop:
`completed_tasks` (a set, kept duplicate-free), the `results` dict, the
per-task terminal outcomes, and the ids handed to `_execute_task`
(dispatch order). -/
structure ExecState where
  completed : List String
  results : List (String × Val)
  statuses : List (String × TaskOutcome)
  dispatched : List String

/-- `completed_tasks.add(id)` on the duplicate-free list model of the set. -/
def insertIfAbsent (l : List String) (x : String) : List String :=
  if l.contains x then l else l ++ [x]

/-- Settling of one gathered task (`_execute_tasks`, result-processing loop):
an exception marks the task `failed` and records the error; otherwise the task
is `completed` and its result stored; either way the id joins
`completed_tasks`.  Placeholders are resolved against `wave_results`, the
result map as of the start of the wave (`_execute_task` resolves before any
sibling of the same wave is processed). -/
def settleTask (call : AgentTask → List (String × Val) → Except String Val)
    (wave_results : List (String × Val)) (st : ExecState) (t : AgentTask) : ExecState :=
  match call t (resolve_placeholders t.input_data wave_results) with
  | Except.error e =>
    { st with statuses := st.statuses ++ [(t.task_id, TaskOutcome.failed e)],
              completed := insertIfAbsent st.completed t.task_id }
  | Except.ok r =>
    { st with statuses := st.statuses ++ [(t.task_id, TaskOutcome.completed r)],
              results := dictSet st.results t.task_id r,
              completed := insertIfAbsent st.completed t.task_id }

/-- One wave: every ready task is dispatched (`asyncio.gather`), then the
settled outcomes are processed in list order. -/
def processWave (call : AgentTask → List (String × Val) → Except String Val)
    (st : ExecState) (ready : List AgentTask) : ExecState :=
  ready.foldl (settleTask call st.results)
    { st with dispatched := st.dispatched ++ ready.map (fun t => t.task_id) }

/-- The ready frontier: not yet settled, and every dependency id settled. -/
def readyTasks (tasks : List AgentTask) (completed : List String) : List AgentTask :=
  tasks.filter (fun t =>
    !(completed.contains t.task_id) && t.depends_on.all (fun d => completed.contains d))

/-- The ids reported by the deadlock `RuntimeError` message. -/
def pendingIds (tasks : List AgentTask) (completed : List String) : List String :=
  (tasks.filter (fun t => !(completed.contains t.task_id))).map (fun t => t.task_id)

/-- The `while len(completed_tasks) < len(tasks)` loop of `_execute_tasks`,
with an explicit fuel so that termination is a provable statement rather than
an assumption: `Option.none` marks fuel exhaustion (never reached, see the
termination theorem), `Except.error` models the raised deadlock
`RuntimeError` (carrying the pending ids of its message and the state at the
raise), `Except.ok` the normal return. -/
def execLoop (call : AgentTask → List (String × Val) → Except String Val)
    (tasks : List AgentTask) :
    Nat → ExecState → Option (Except (List String × ExecState) ExecState)
  | 0, _ => Option.none
  | Nat.succ fuel, st =>
    if st.completed.length < tasks.length then
      match readyTasks tasks st.completed with
      | [] => some (Except.error (pendingIds tasks st.completed, st))
      | r :: rs => execLoop call tasks fuel (processWave call st (r :: rs))
    else
      some (Except.ok st)

/-- `SessionOrchestrator._execute_tasks(tasks)`: the loop runs from the empty
state; `length tasks + 1` fuel is enough for every input (proved below). -/
def execute_tasks (call : AgentTask → List (String × Val) → Except String Val)
    (tasks : List AgentTask) : Option (Except (List String × ExecState) ExecState) :=
  execLoop call tasks (tasks.length + 1) ⟨[], [], [], []⟩

/-- Status string of one task after a run (observable on the orchestrator's
`self.tasks` whether the run returned or raised). -/
def runStatusTag (r : Option (Except (List String × ExecState) ExecState))
    (id : String) : Option String :=
  match r with
  | some (Except.ok st) => (assocGet st.statuses id).map outcomeTag
  | some (Except.error (_, st)) => (assocGet st.statuses id).map outcomeTag
  | Option.none => Option.none

/-- Dispatch order of a run (the ids handed to `_execute_task`). -/
def runDispatched (r : Option (Except (List String × ExecState) ExecState)) :
    Option (List String) :=
  match r with
  | some (Except.ok st) => some st.dispatched
  | some (Except.error (_, st)) => some st.dispatched
  | Option.none => Option.none

/-- Pending ids of a raised dependency deadlock, if the run raised one. -/
def runPending (r : Option (Except (List String × ExecState) ExecState)) :
    Option (List String) :=
  match r with
  | some (Except.error (p, _)) => some p
  | _ => Option.none

/-- Entry of the result map after a normal return. -/
def runResultOf (r : Option (Except (List String × ExecState) ExecState))
    (id : String) : Option Val :=
  match r with
  | some (Except.ok st) => assocGet st.results id
  | _ => Option.none

/-- Input dict of the hypothesis task (`_plan_research_tasks`, task 1). -/
def hypothesisInput (initial_prompt : String) : List (String × Val) :=
  [("literature_summary", Val.str initial_prompt),
   ("research_gap", Val.str "Identified from prompt"),
   ("domain", Val.str "general")]

/-- Input dict of the experiment-design task (`_plan_research_tasks`, task 2). -/
def experimentInput : List (String × Val) :=
  [("hypothesis", Val.str "\x7b\x7btask_1.result\x7d\x7d"),
   ("domain", Val.str "general")]

/-- Input dict of the code-generation task (`_plan_research_tasks`, task 3). -/
def codeGenInput : List (String × Val) :=
  [("experiment_design", Val.str "\x7b\x7btask_2.result\x7d\x7d"),
   ("domain", Val.str "general")]

/-- Input dict of the execution task (`_plan_research_tasks`, task 4). -/
def executionInput (session_id : String) : List (String × Val) :=
  [("experiment_id", Val.str session_id),
   ("code", Val.str "\x7b\x7btask_3.result.code\x7d\x7d")]

/-- Input dict of the analysis task (`_plan_research_tasks`, task 5). -/
def analysisInput : List (String × Val) :=
  [("hypothesis", Val.str "\x7b\x7btask_1.result\x7d\x7d"),
   ("experiment_design", Val.str "\x7b\x7btask_2.result\x7d\x7d"),
   ("execution_results", Val.str "\x7b\x7btask_4.result\x7d\x7d"),
   ("domain", Val.str "general")]

/-- One `if name in agent_map: task_counter += 1; tasks.append(...)` block of
`_plan_research_tasks`: the id is `f"task_{task_counter}"` with the
incremented counter, while `depends_on` is the hard-coded literal list of the
source. -/
def planStage (agent_map : List (String × String)) (name skill : String)
    (input : List (String × Val)) (deps : List String)
    (acc : List AgentTask × Nat) : List AgentTask × Nat :=
  match assocGet agent_map name with
  | some aid =>
    (acc.1 ++ [{ task_id := "task_" ++ toString (acc.2 + 1), agent_id := aid,
                 agent_name := name, skill_name := skill,
                 input_data := input, depends_on := deps }], acc.2 + 1)
  | Option.none => acc

/-- `SessionOrchestrator._plan_research_tasks(initial_prompt)`; `agent_map` is
the name-to-id map built from the enabled session agents. -/
def plan_research_tasks (agent_map : List (String × String))
    (initial_prompt session_id : String) : List AgentTask :=
  (planStage agent_map "analysis_agent" "analyze_results"
    analysisInput ["task_1", "task_2", "task_4"]
    (planStage agent_map "execution_agent" "execute_experiment"
      (executionInput session_id) ["task_3"]
      (planStage agent_map "code_gen_agent" "generate_code"
        codeGenInput ["task_2"]
        (planStage agent_map "experiment_agent" "design_experiment"
          experimentInput ["task_1"]
          (planStage agent_map "hypothesis_agent" "generate_hypotheses"
            (hypothesisInput initial_prompt) [] ([], 0)))))).1

/-- State of an `A2AAgentClient` after construction / `initialize`. -/
structure ClientState where
  agent_name : String
  service_url : Option String
  is_initialized : Bool
  has_adk_service : Bool
  use_adk : Bool

/-- Outcome of the ADK-service probe performed inside `initialize`: the
`adk_agent_service.initialize()` / `get_agent` sequence either raises, or
reports whether the named agent exists and whether an API key is configured. -/
inductive AdkEnv where
  | raises (e : String)
  | ok (hasAgent : Bool) (configured : Bool)

/-- `A2AAgentClient.__init__`. -/
def clientNew (agent_name : String) (service_url : Option String) : ClientState :=
  { agent_name, service_url, is_initialized := false,
    has_adk_service := false, use_adk := false }

/-- `A2AAgentClient.initialize()`: the ADK probe is wrapped in
`try/except Exception`, so every outcome falls through to
`self.is_initialized = True`; only a found agent installs the service, and
`_use_adk` is its configuration flag. -/
def clientInit (st : ClientState) (env : AdkEnv) : ClientState :=
  match env with
  | AdkEnv.raises _ =>
    { st with use_adk := false, is_initialized := true }
  | AdkEnv.ok hasAgent configured =>
    if hasAgent then
      { st with has_adk_service := true, use_adk := configured, is_initialized := true }
    else
      { st with is_initialized := true }

mutual

/-- Python `str()` of a `Val` (used by f-string interpolation in stub
payloads; the textual rendering of floats is abstracted — no claim inspects
it). -/
def pyStr : Val → String
  | Val.str s => s
  | Val.num n => toString n
  | Val.float m e => toString m ++ "e-" ++ toString e
  | Val.bool b => if b then "True" else "False"
  | Val.dict fields => "\x7b" ++ pyStrFields fields ++ "\x7d"
  | Val.arr items => "[" ++ pyStrItems items ++ "]"

def pyStrFields : List (String × Val) → String
  | [] => ""
  | [(k, v)] => "\x27" ++ k ++ "\x27: " ++ pyStr v
  | (k, v) :: rest => "\x27" ++ k ++ "\x27: " ++ pyStr v ++ ", " ++ pyStrFields rest

def pyStrItems : List Val → String
  | [] => ""
  | [v] => pyStr v
  | v :: rest => pyStr v ++ ", " ++ pyStrItems rest

end

/-- Python `input_data.get(key, default)` rendered with `str()` for f-string
interpolation. -/
def pyGetStr (input_data : List (String × Val)) (key dflt : String) : String :=
  match assocGet input_data key with
  | some v => pyStr v
  | Option.none => dflt

/-- `A2AAgentClient._get_stub_response(skill_name, input_data)`: the fixed
development payloads, one per known skill plus a generic fallback; every
branch carries `"status": "success"`. -/
def getStubResponse (agent_name skill_name : String)
    (input_data : List (String × Val)) : Val :=
  if skill_name == "generate_hypotheses" then
    Val.dict
      [("status", Val.str "success"),
       ("raw_output", Val.str
         ("# Generated Hypotheses (Stub)\n\nBased on the research prompt:\n\n1. **Hypothesis 1**: Initial hypothesis based on literature\n2. **Hypothesis 2**: Alternative explanation\n3. **Hypothesis 3**: Novel approach hypothesis\n\nInput: "
          ++ pyGetStr input_data "literature_summary" "N/A"
          ++ "\n\n*Note: Configure ANTHROPIC_API_KEY or GOOGLE_API_KEY for real LLM responses.*")),
       ("hypotheses", Val.arr
         [Val.dict [("id", Val.str "h1"), ("text", Val.str "Primary hypothesis"),
                    ("confidence", Val.float 8 1)],
          Val.dict [("id", Val.str "h2"), ("text", Val.str "Secondary hypothesis"),
                    ("confidence", Val.float 6 1)]])]
  else if skill_name == "design_experiment" then
    Val.dict
      [("status", Val.str "success"),
       ("raw_output", Val.str
         "# Experiment Design (Stub)\n\n## Methodology\n- Step 1: Setup\n- Step 2: Execute\n- Step 3: Collect data\n\n## Expected Outcomes\n- Measurement criteria defined\n- Control variables established\n\n*Note: Configure an API key for real LLM responses.*"),
       ("design", Val.dict
         [("steps", Val.arr [Val.str "setup", Val.str "execute", Val.str "collect"]),
          ("variables", Val.arr [Val.str "independent", Val.str "dependent", Val.str "control"])])]
  else if skill_name == "generate_code" then
    Val.dict
      [("status", Val.str "success"),
       ("code", Val.str
         "# Generated Experiment Code (Stub)\n\nimport numpy as np\nimport pandas as pd\n\ndef run_experiment():\n    \"\"\"Execute the designed experiment.\"\"\"\n    np.random.seed(42)\n    data = np.random.randn(100)\n    return pd.DataFrame(\x7b\x27results\x27: data\x7d)\n\nif __name__ == \x27__main__\x27:\n    results = run_experiment()\n    print(results.describe())\n\n# Note: Configure an API key for real LLM responses.\n"),
       ("language", Val.str "python")]
  else if skill_name == "execute_experiment" then
    Val.dict
      [("status", Val.str "success"),
       ("raw_output", Val.str
         "# Experiment Execution Results (Stub)\n\nExperiment completed successfully.\n\n## Results Summary\n- Samples processed: 100\n- Success rate: 95%\n- Execution time: 2.3s\n\n*Note: Configure an API key for real LLM responses.*"),
       ("execution_id",
         match assocGet input_data "experiment_id" with
         | some v => v
         | Option.none => Val.str "unknown"),
       ("metrics", Val.dict
         [("samples", Val.num 100), ("success_rate", Val.float 95 2),
          ("duration", Val.float 23 1)])]
  else if skill_name == "analyze_results" then
    Val.dict
      [("status", Val.str "success"),
       ("raw_output", Val.str
         "# Analysis Report (Stub)\n\n## Statistical Analysis\n- Mean: 0.05\n- Std Dev: 1.02\n- P-value: 0.03\n\n## Conclusions\nThe results support the primary hypothesis with statistical significance (p < 0.05).\n\n## Recommendations\n1. Further investigation recommended\n2. Consider expanding sample size\n\n*Note: Configure an API key for real LLM responses.*"),
       ("analysis", Val.dict
         [("hypothesis_supported", Val.bool true),
          ("confidence", Val.float 85 2), ("p_value", Val.float 3 2)])]
  else
    Val.dict
      [("status", Val.str "success"),
       ("raw_output", Val.str
         ("# Agent Output (Stub)\n\nAgent: " ++ agent_name ++ "\nSkill: " ++ skill_name
          ++ "\n\nExecution completed.\n\n*Note: Configure an API key for real LLM responses.*")),
       ("input_received", Val.dict input_data)]

/-- `A2AAgentClient.call_skill(skill_name, input_data)`: in configured ADK
mode the ADK result is returned, an ADK exception is caught and falls back to
the stub; outside ADK mode the stub answers directly.  `adkOutcome` is what
`adk_agent_service.call_agent` would do if invoked. -/
def call_skill (st : ClientState) (adkOutcome : Except String Val)
    (skill_name : String) (input_data : List (String × Val)) : Val :=
  if st.use_adk && st.has_adk_service then
    match adkOutcome with
    | Except.ok r => r
    | Except.error _ => getStubResponse st.agent_name skill_name input_data
  else
    getStubResponse st.agent_name skill_name input_data

/-- The `"status"` field of an agent payload (`result` dicts are looked up by
key downstream). -/
def statusOf (v : Val) : Option Val :=
  match v with
  | Val.dict m => assocGet m "status"
  | _ => Option.none

/-- A client that went through `initialize` with an unreachable / unconfigured
ADK service: the stub mode every agent runs in without an API key. -/
def stubClient (agent_name : String) : ClientState :=
  clientInit (clientNew agent_name Option.none) (AdkEnv.raises "ADK unavailable")

/-- The executor's agent invocation in stub mode: `_execute_task` reaches
`execute_single_agent`, whose `client.call_skill` never raises and answers
with the stub payload (db/session side effects are outside this model). -/
def stubModeCall (t : AgentTask) (resolved : List (String × Val)) : Except String Val :=
  Except.ok (call_skill (stubClient t.agent_name) (Except.error "unreachable")
    t.skill_name resolved)

/-- Outcome of the `create_session_memory` endpoint (`sessions.py`): the only
status guard is the `"archived"` check. -/
inductive MemoryOutcome where
  | httpError (code : Nat) (detail : String)
  | created

/-- `create_session_memory` (`app/api/endpoints/sessions.py`), reduced to its
session-status handling: a missing session is 404, an archived session is 400,
any other status stores the memory. -/
def create_session_memory (session_status : Option String) : MemoryOutcome :=
  match session_status with
  | Option.none => MemoryOutcome.httpError 404 "Session not found"
  | some st =>
    if st == "archived" then
      MemoryOutcome.httpError 400 "Cannot add memories to archived session"
    else
      MemoryOutcome.created

/-- `SessionOrchestrator.execute_research_workflow(initial_prompt)`, reduced
to its session-status outcome: the function inspects `prior_status` nowhere —
it unconditionally sets the session `"active"`, plans, runs `_execute_tasks`,
and finalizes to `"completed"` on normal return; any raised exception (the
dependency deadlock included) is caught, the session becomes `"failed"`, and
the exception is re-raised. -/
def execute_research_workflow
    (call : AgentTask → List (String × Val) → Except String Val)
    (_prior_status : String) (tasks : List AgentTask) : String :=
  match execute_tasks call tasks with
  | some (Except.ok _) => "completed"
  | some (Except.error _) => "failed"
  | Option.none => "failed"

lemma mem_insertIfAbsent_self (l : List String) (x : String) : x ∈ insertIfAbsent l x := by
  unfold insertIfAbsent
  split
  · next h => exact List.elem_iff.mp h
  · simp

lemma mem_insertIfAbsent_of_mem {l : List String} {x y : String} (h : y ∈ l) :
    y ∈ insertIfAbsent l x := by
  unfold insertIfAbsent
  split <;> simp [h]

lemma mem_insertIfAbsent {l : List String} {x y : String} (h : y ∈ insertIfAbsent l x) :
    y ∈ l ∨ y = x := by
  unfold insertIfAbsent at h
  split at h
  · exact Or.inl h
  · rcases List.mem_append.mp h with h' | h'
    · exact Or.inl h'
    · simp at h'
      exact Or.inr h'

lemma insertIfAbsent_length_le (l : List String) (x : String) :
    l.length ≤ (insertIfAbsent l x).length := by
  unfold insertIfAbsent
  split <;> simp

lemma insertIfAbsent_length_lt {l : List String} {x : String} (h : x ∉ l) :
    l.length < (insertIfAbsent l x).length := by
  unfold insertIfAbsent
  split
  · next hc => exact absurd (List.elem_iff.mp hc) h
  · simp

lemma insertIfAbsent_nodup {l : List String} {x : String} (h : l.Nodup) :
    (insertIfAbsent l x).Nodup := by
  unfold insertIfAbsent
  split
  · exact h
  · next hc =>
    refine List.Nodup.append h (List.nodup_singleton x) ?_
    intro y hy hy'
    simp at hy'
    subst hy'
    exact hc (List.elem_iff.mpr hy)

lemma foldl_insertIfAbsent_length_le (ids : List String) :
    ∀ c : List String, c.length ≤ (ids.foldl insertIfAbsent c).length := by
  induction ids with
  | nil => intro c; simp
  | cons y ys ih =>
    intro c
    calc c.length ≤ (insertIfAbsent c y).length := insertIfAbsent_length_le c y
      _ ≤ (ys.foldl insertIfAbsent (insertIfAbsent c y)).length := ih _

lemma foldl_insertIfAbsent_length_lt {ids : List String} {x : String} :
    ∀ {c : List String}, x ∈ ids → x ∉ c → c.length < (ids.foldl insertIfAbsent c).length := by
  induction ids with
  | nil => intro c h; simp at h
  | cons y ys ih =>
    intro c hx hc
    by_cases hxy : x ∈ insertIfAbsent c y
    · rcases mem_insertIfAbsent hxy with h | h
      · exact absurd h hc
      · subst h
        calc c.length < (insertIfAbsent c x).length := insertIfAbsent_length_lt hc
          _ ≤ (ys.foldl insertIfAbsent (insertIfAbsent c x)).length :=
            foldl_insertIfAbsent_length_le ys _
    · have hxys : x ∈ ys := by
        rcases List.mem_cons.mp hx with h | h
        · exact absurd (h ▸ mem_insertIfAbsent_self c y) hxy
        · exact h
      calc c.length ≤ (insertIfAbsent c y).length := insertIfAbsent_length_le c y
        _ < (ys.foldl insertIfAbsent (insertIfAbsent c y)).length := ih hxys hxy

lemma mem_foldl_insertIfAbsent {ids : List String} {y : String} :
    ∀ {c : List String}, y ∈ ids.foldl insertIfAbsent c → y ∈ c ∨ y ∈ ids := by
  induction ids with
  | nil => intro c h; exact Or.inl h
  | cons z zs ih =>
    intro c h
    rcases ih h with h' | h'
    · rcases mem_insertIfAbsent h' with h'' | h''
      · exact Or.inl h''
      · exact Or.inr (h'' ▸ List.mem_cons_self z zs)
    · exact Or.inr (List.mem_cons_of_mem z h')

lemma mem_foldl_insertIfAbsent_of_mem {ids : List String} {y : String} :
    ∀ {c : List String}, y ∈ c → y ∈ ids.foldl insertIfAbsent c := by
  induction ids with
  | nil => intro c h; exact h
  | cons z zs ih => intro c h; exact ih (mem_insertIfAbsent_of_mem h)

lemma nodup_foldl_insertIfAbsent {ids : List String} :
    ∀ {c : List String}, c.Nodup → (ids.foldl insertIfAbsent c).Nodup := by
  induction ids with
  | nil => intro c h; exact h
  | cons z zs ih => intro c h; exact ih (insertIfAbsent_nodup h)

lemma mem_of_nodup_subset_length {c ids : List String} (hnd : c.Nodup)
    (hsub : ∀ x ∈ c, x ∈ ids) (hlen : ids.length ≤ c.length) : ∀ y ∈ ids, y ∈ c := by
  intro y hy
  have hfin : c.toFinset ⊆ ids.toFinset := by
    intro z hz
    exact List.mem_toFinset.mpr (hsub z (List.mem_toFinset.mp hz))
  have hcard : ids.toFinset.card ≤ c.toFinset.card := by
    calc ids.toFinset.card ≤ ids.length := List.toFinset_card_le ids
      _ ≤ c.length := hlen
      _ = c.toFinset.card := (List.toFinset_card_of_nodup hnd).symm
  have := Finset.eq_of_subset_of_card_le hfin hcard
  exact List.mem_toFinset.mp (this ▸ List.mem_toFinset.mpr hy)

lemma settleTask_completed (call : AgentTask → List (String × Val) → Except String Val)
    (r0 : List (String × Val)) (st : ExecState) (t : AgentTask) :
    (settleTask call r0 st t).completed = insertIfAbsent st.completed t.task_id := by
  unfold settleTask
  cases call t (resolve_placeholders t.input_data r0) <;> rfl

lemma settleTask_dispatched (call : AgentTask → List (String × Val) → Except String Val)
    (r0 : List (String × Val)) (st : ExecState) (t : AgentTask) :
    (settleTask call r0 st t).dispatched = st.dispatched := by
  unfold settleTask
  cases call t (resolve_placeholders t.input_data r0) <;> rfl

lemma settleTask_statuses (call : AgentTask → List (String × Val) → Except String Val)
    (r0 : List (String × Val)) (st : ExecState) (t : AgentTask) :
    ∃ oc, (settleTask call r0 st t).statuses = st.statuses ++ [(t.task_id, oc)] := by
  unfold settleTask
  cases call t (resolve_placeholders t.input_data r0) <;> exact ⟨_, rfl⟩

lemma settleTask_statuses_ok {call : AgentTask → List (String × Val) → Except String Val}
    (hcall : ∀ t inp, ∃ r, call t inp = Except.ok r)
    (r0 : List (String × Val)) (st : ExecState) (t : AgentTask) :
    ∃ r, (settleTask call r0 st t).statuses =
      st.statuses ++ [(t.task_id, TaskOutcome.completed r)] := by
  obtain ⟨r, hr⟩ := hcall t (resolve_placeholders t.input_data r0)
  exact ⟨r, by unfold settleTask; rw [hr]⟩

lemma foldl_settle_completed (call : AgentTask → List (String × Val) → Except String Val)
    (r0 : List (String × Val)) (ready : List AgentTask) :
    ∀ st : ExecState, ((ready.foldl (settleTask call r0) st).completed) =
      (ready.map (fun t => t.task_id)).foldl insertIfAbsent st.completed := by
  induction ready with
  | nil => intro st; rfl
  | cons t ts ih =>
    intro st
    simp only [List.foldl_cons, List.map_cons]
    rw [ih, settleTask_completed]

lemma foldl_settle_dispatched (call : AgentTask → List (String × Val) → Except String Val)
    (r0 : List (String × Val)) (ready : List AgentTask) :
    ∀ st : ExecState, (ready.foldl (settleTask call r0) st).dispatched = st.dispatched := by
  induction ready with
  | nil => intro st; rfl
  | cons t ts ih =>
    intro st
    simp only [List.foldl_cons]
    rw [ih, settleTask_dispatched]

lemma processWave_completed (call : AgentTask → List (String × Val) → Except String Val)
    (st : ExecState) (ready : List AgentTask) :
    (processWave call st ready).completed =
      (ready.map (fun t => t.task_id)).foldl insertIfAbsent st.completed := by
  unfold processWave
  rw [foldl_settle_completed]

lemma processWave_dispatched (call : AgentTask → List (String × Val) → Except String Val)
    (st : ExecState) (ready : List AgentTask) :
    (processWave call st ready).dispatched =
      st.dispatched ++ ready.map (fun t => t.task_id) := by
  unfold processWave
  rw [foldl_settle_dispatched]

lemma readyTasks_mem {tasks : List AgentTask} {c : List String} {t : AgentTask}
    (h : t ∈ readyTasks tasks c) : t ∈ tasks :=
  List.mem_of_mem_filter h

lemma readyTasks_not_completed {tasks : List AgentTask} {c : List String} {t : AgentTask}
    (h : t ∈ readyTasks tasks c) : t.task_id ∉ c := by
  have := List.of_mem_filter h
  simp only [Bool.and_eq_true, Bool.not_eq_true'] at this
  intro hmem
  have hc : c.contains t.task_id = true := List.elem_iff.mpr hmem
  rw [hc] at this
  exact Bool.noConfusion this.1

lemma execLoop_isSome (call : AgentTask → List (String × Val) → Except String Val)
    (tasks : List AgentTask) :
    ∀ (fuel : Nat) (st : ExecState), tasks.length - st.completed.length < fuel →
      (execLoop call tasks fuel st).isSome = true := by
  intro fuel
  induction fuel with
  | zero => intro st h; omega
  | succ fuel ih =>
    intro st h
    unfold execLoop
    by_cases hlt : st.completed.length < tasks.length
    · simp only [hlt, if_true]
      cases hready : readyTasks tasks st.completed with
      | nil => rfl
      | cons r rs =>
        apply ih
        have hr : r ∈ readyTasks tasks st.completed := by
          rw [hready]; exact List.mem_cons_self r rs
        have hnotin : r.task_id ∉ st.completed := readyTasks_not_completed hr
        have hgrow : st.completed.length <
            ((processWave call st (r :: rs)).completed).length := by
          rw [processWave_completed]
          exact foldl_insertIfAbsent_length_lt (List.mem_cons_self _ _) hnotin
        omega
    · simp [hlt]

lemma execute_tasks_isSome (call : AgentTask → List (String × Val) → Except String Val)
    (tasks : List AgentTask) : (execute_tasks call tasks).isSome = true := by
  unfold execute_tasks
  apply execLoop_isSome
  simp

lemma execLoop_ok_inv (P : ExecState → Prop)
    {call : AgentTask → List (String × Val) → Except String Val}
    {tasks : List AgentTask}
    (hstep : ∀ st : ExecState, st.completed.length < tasks.length →
      readyTasks tasks st.completed ≠ [] → P st →
      P (processWave call st (readyTasks tasks st.completed))) :
    ∀ (fuel : Nat) (st st' : ExecState),
      execLoop call tasks fuel st = some (Except.ok st') → P st →
      P st' ∧ tasks.length ≤ st'.completed.length := by
  intro fuel
  induction fuel with
  | zero => intro st st' h; exact absurd h (by simp [execLoop])
  | succ fuel ih =>
    intro st st' h hP
    unfold execLoop at h
    by_cases hlt : st.completed.length < tasks.length
    · simp only [hlt, if_true] at h
      cases hready : readyTasks tasks st.completed with
      | nil => rw [hready] at h; simp at h
      | cons r rs =>
        rw [hready] at h
        have hP' := hstep st hlt (by rw [hready]; simp) hP
        rw [hready] at hP'
        exact ih _ _ h hP'
    · simp only [hlt, if_false, Option.some.injEq] at h
      cases h
      exact ⟨hP, Nat.le_of_not_lt hlt⟩

lemma execute_tasks_ok_all_dispatched
    {call : AgentTask → List (String × Val) → Except String Val}
    {tasks : List AgentTask} {st : ExecState}
    (h : execute_tasks call tasks = some (Except.ok st)) :
    ∀ t ∈ tasks, t.task_id ∈ st.dispatched := by
  have hinv := execLoop_ok_inv
    (fun s => s.completed.Nodup ∧
      (∀ x ∈ s.completed, x ∈ tasks.map AgentTask.task_id) ∧
      (∀ x ∈ s.completed, x ∈ s.dispatched))
    ?hstep (tasks.length + 1) ⟨[], [], [], []⟩ st h ⟨List.nodup_nil, by simp, by simp⟩
  case hstep =>
    intro s _ _ hP
    obtain ⟨hnd, hids, hdisp⟩ := hP
    refine ⟨?_, ?_, ?_⟩
    · rw [processWave_completed]
      exact nodup_foldl_insertIfAbsent hnd
    · intro x hx
      rw [processWave_completed] at hx
      rcases mem_foldl_insertIfAbsent hx with h' | h'
      · exact hids x h'
      · obtain ⟨t, ht, rfl⟩ := List.mem_map.mp h'
        exact List.mem_map.mpr ⟨t, readyTasks_mem ht, rfl⟩
    · intro x hx
      rw [processWave_completed] at hx
      rw [processWave_dispatched]
      rcases mem_foldl_insertIfAbsent hx with h' | h'
      · exact List.mem_append_left _ (hdisp x h')
      · exact List.mem_append_right _ h'
  obtain ⟨⟨hnd, hids, hdisp⟩, hlen⟩ := hinv
  intro t ht
  have hid : t.task_id ∈ tasks.map AgentTask.task_id := List.mem_map.mpr ⟨t, ht, rfl⟩
  have hmem : t.task_id ∈ st.completed := by
    apply mem_of_nodup_subset_length hnd hids _ _ hid
    simpa using hlen
  exact hdisp _ hmem

lemma execute_tasks_ok_statuses_completed
    {call : AgentTask → List (String × Val) → Except String Val}
    {tasks : List AgentTask} {st : ExecState}
    (hcall : ∀ t inp, ∃ r, call t inp = Except.ok r)
    (h : execute_tasks call tasks = some (Except.ok st)) :
    ∀ p ∈ st.statuses, outcomeTag p.2 = "completed" := by
  have hfold : ∀ (r0 : List (String × Val)) (ready : List AgentTask) (s : ExecState),
      (∀ p ∈ s.statuses, outcomeTag p.2 = "completed") →
      ∀ p ∈ (ready.foldl (settleTask call r0) s).statuses, outcomeTag p.2 = "completed" := by
    intro r0 ready
    induction ready with
    | nil => intro s hs; exact hs
    | cons t ts ih =>
      intro s hs
      simp only [List.foldl_cons]
      apply ih
      obtain ⟨r, hr⟩ := settleTask_statuses_ok hcall r0 s t
      rw [hr]
      intro p hp
      rcases List.mem_append.mp hp with h' | h'
      · exact hs p h'
      · simp at h'
        rw [h']
        rfl
  have hinv := execLoop_ok_inv
    (fun s => ∀ p ∈ s.statuses, outcomeTag p.2 = "completed")
    ?hstep (tasks.length + 1) ⟨[], [], [], []⟩ st h (by simp)
  case hstep =>
    intro s _ _ hP
    exact hfold s.results _ _ hP
  exact hinv.1

lemma navigate_none : ∀ ps : List String, navigate Option.none ps = Option.none
  | [] => rfl
  | _ :: ps => navigate_none ps

lemma assocGet_resolve (input results : List (String × Val)) (k : String) :
    assocGet (resolve_placeholders input results) k =
      (assocGet input k).map (resolveValue results) := by
  induction input with
  | nil => rfl
  | cons kv rest ih =>
    obtain ⟨k', v⟩ := kv
    simp only [resolve_placeholders, List.map_cons, assocGet]
    by_cases h : (k' == k) = true
    · simp [h]
    · simp only [h, if_false]
      exact ih

lemma assocGet_mem {α : Type} {m : List (String × α)} {k : String} {v : α}
    (h : assocGet m k = some v) : ∃ p ∈ m, p.2 = v := by
  induction m with
  | nil => exact absurd h (by simp [assocGet])
  | cons kv rest ih =>
    rw [assocGet] at h
    split at h
    · cases h
      exact ⟨kv, List.mem_cons_self _ _, rfl⟩
    · obtain ⟨p, hp, hv⟩ := ih h
      exact ⟨p, List.mem_cons_of_mem _ hp, hv⟩

lemma resolveValue_literal_of_navigate_none {results : List (String × Val)} {s : String}
    (hph : isPlaceholder s = true)
    (hnav : navigate (some (Val.dict results)) (refParts s) = Option.none) :
    resolveValue results (Val.str s) = Val.str s := by
  simp only [resolveValue, hph, if_true, hnav]

/-- `lacksResultKey v` : `v` is not a dict carrying a `"result"` key (true for
every stub payload; navigation of a `result`-led path through such a value
yields `None`). -/
def lacksResultKey (v : Val) : Bool :=
  match v with
  | Val.dict m => (assocGet m "result").isNone
  | _ => true

lemma navigate_result_none {v : Val} (h : lacksResultKey v = true) (rest : List String) :
    navigate (some v) ("result" :: rest) = Option.none := by
  cases v with
  | dict m =>
    unfold lacksResultKey at h
    rw [Option.isNone_iff_eq_none] at h
    show navigate (assocGet m "result") rest = Option.none
    rw [h, navigate_none]
  | str s => exact navigate_none rest
  | num n => exact navigate_none rest
  | float m e => exact navigate_none rest
  | bool b => exact navigate_none rest
  | arr l => exact navigate_none rest

lemma mem_planStage {am : List (String × String)} {n sk : String}
    {inp : List (String × Val)} {deps : List String} {acc : List AgentTask × Nat}
    {t : AgentTask} (h : t ∈ (planStage am n sk inp deps acc).1) :
    t ∈ acc.1 ∨ t.input_data = inp := by
  unfold planStage at h
  split at h
  · rcases List.mem_append.mp h with h' | h'
    · exact Or.inl h'
    · simp at h'
      exact Or.inr (by rw [h'])
  · exact Or.inl h

lemma plan_input_cases {am : List (String × String)} {p sid : String} {t : AgentTask}
    (h : t ∈ plan_research_tasks am p sid) :
    t.input_data = hypothesisInput p ∨ t.input_data = experimentInput ∨
    t.input_data = codeGenInput ∨ t.input_data = executionInput sid ∨
    t.input_data = analysisInput := by
  unfold plan_research_tasks at h
  rcases mem_planStage h with h | h
  · rcases mem_planStage h with h | h
    · rcases mem_planStage h with h | h
      · rcases mem_planStage h with h | h
        · rcases mem_planStage h with h | h
          · simp at h
          · exact Or.inl h
        · exact Or.inr (Or.inl h)
      · exact Or.inr (Or.inr (Or.inl h))
    · exact Or.inr (Or.inr (Or.inr (Or.inl h)))
  · exact Or.inr (Or.inr (Or.inr (Or.inr h)))

lemma no_placeholder_hypothesisInput {p k s : String} (hp : isPlaceholder p = false)
    (hk : assocGet (hypothesisInput p) k = some (Val.str s))
    (hph : isPlaceholder s = true) : False := by
  simp only [hypothesisInput, assocGet] at hk
  split_ifs at hk <;>
    first
      | exact Option.noConfusion hk
      | (injection hk with h1
         injection h1 with h2
         subst h2
         first
           | (simp [hp] at hph)
           | exact absurd hph (by decide))

lemma path_experimentInput {k s : String}
    (hk : assocGet experimentInput k = some (Val.str s))
    (hph : isPlaceholder s = true) :
    ((refParts s).drop 1).head? = some "result" := by
  simp only [experimentInput, assocGet] at hk
  split_ifs at hk <;>
    first
      | exact Option.noConfusion hk
      | (injection hk with h1
         injection h1 with h2
         subst h2
         first
           | decide
           | exact absurd hph (by decide))

lemma path_codeGenInput {k s : String}
    (hk : assocGet codeGenInput k = some (Val.str s))
    (hph : isPlaceholder s = true) :
    ((refParts s).drop 1).head? = some "result" := by
  simp only [codeGenInput, assocGet] at hk
  split_ifs at hk <;>
    first
      | exact Option.noConfusion hk
      | (injection hk with h1
         injection h1 with h2
         subst h2
         first
           | decide
           | exact absurd hph (by decide))

lemma path_executionInput {sid k s : String} (hs : isPlaceholder sid = false)
    (hk : assocGet (executionInput sid) k = some (Val.str s))
    (hph : isPlaceholder s = true) :
    ((refParts s).drop 1).head? = some "result" := by
  simp only [executionInput, assocGet] at hk
  split_ifs at hk <;>
    first
      | exact Option.noConfusion hk
      | (injection hk with h1
         injection h1 with h2
         subst h2
         first
           | decide
           | (simp [hs] at hph))

lemma path_analysisInput {k s : String}
    (hk : assocGet analysisInput k = some (Val.str s))
    (hph : isPlaceholder s = true) :
    ((refParts s).drop 1).head? = some "result" := by
  simp only [analysisInput, assocGet] at hk
  split_ifs at hk <;>
    first
      | exact Option.noConfusion hk
      | (injection hk with h1
         injection h1 with h2
         subst h2
         first
           | decide
           | exact absurd hph (by decide))

lemma plan_placeholder_path {am : List (String × String)} {p sid : String}
    {t : AgentTask} {k s : String}
    (hp : isPlaceholder p = false) (hs : isPlaceholder sid = false)
    (ht : t ∈ plan_research_tasks am p sid)
    (hk : assocGet t.input_data k = some (Val.str s))
    (hph : isPlaceholder s = true) :
    ((refParts s).drop 1).head? = some "result" := by
  rcases plan_input_cases ht with h | h | h | h | h <;> rw [h] at hk
  · exact (no_placeholder_hypothesisInput hp hk hph).elim
  · exact path_experimentInput hk hph
  · exact path_codeGenInput hk hph
  · exact path_executionInput hs hk hph
  · exact path_analysisInput hk hph

lemma statusOf_stub (a sk : String) (inp : List (String × Val)) :
    statusOf (getStubResponse a sk inp) = some (Val.str "success") := by
  unfold getStubResponse
  split_ifs <;> rfl

lemma stub_lacks_result (a sk : String) (inp : List (String × Val)) :
    lacksResultKey (getStubResponse a sk inp) = true := by
  unfold getStubResponse
  split_ifs <;> rfl

lemma call_skill_not_adk {st : ClientState} (h : (st.use_adk && st.has_adk_service) = false)
    (adkR : Except String Val) (sk : String) (inp : List (String × Val)) :
    call_skill st adkR sk inp = getStubResponse st.agent_name sk inp := by
  unfold call_skill
  simp [h]

lemma call_skill_adk_error (st : ClientState) (e sk : String) (inp : List (String × Val)) :
    call_skill st (Except.error e) sk inp = getStubResponse st.agent_name sk inp := by
  unfold call_skill
  split_ifs <;> rfl

lemma resolve_literal_of_missing_task {input results : List (String × Val)}
    {k tid s : String} {rest : List String}
    (hk : assocGet input k = some (Val.str s)) (hph : isPlaceholder s = true)
    (hparts : refParts s = tid :: rest)
    (habs : assocGet results tid = Option.none) :
    assocGet (resolve_placeholders input results) k = some (Val.str s) := by
  have hnav : navigate (some (Val.dict results)) (refParts s) = Option.none := by
    rw [hparts]
    show navigate (assocGet results tid) rest = Option.none
    rw [habs, navigate_none]
  rw [assocGet_resolve, hk, Option.map_some', resolveValue_literal_of_navigate_none hph hnav]

lemma resolve_literal_of_missing_field {input results : List (String × Val)}
    {k tid s : String} {rest : List String} {r : Val}
    (hk : assocGet input k = some (Val.str s)) (hph : isPlaceholder s = true)
    (hparts : refParts s = tid :: rest)
    (hfound : assocGet results tid = some r)
    (hnav : navigate (some r) rest = Option.none) :
    assocGet (resolve_placeholders input results) k = some (Val.str s) := by
  have hnav' : navigate (some (Val.dict results)) (refParts s) = Option.none := by
    rw [hparts]
    show navigate (assocGet results tid) rest = Option.none
    rw [hfound, hnav]
  rw [assocGet_resolve, hk, Option.map_some', resolveValue_literal_of_navigate_none hph hnav']

lemma resolve_literal_of_result_path {input results : List (String × Val)}
    {k tid s : String} {rest : List String}
    (hres : ∀ pz ∈ results, lacksResultKey pz.2 = true)
    (hk : assocGet input k = some (Val.str s)) (hph : isPlaceholder s = true)
    (hparts : refParts s = tid :: "result" :: rest) :
    assocGet (resolve_placeholders input results) k = some (Val.str s) := by
  cases habs : assocGet results tid with
  | none => exact resolve_literal_of_missing_task hk hph hparts habs
  | some r =>
    have hl : lacksResultKey r = true := by
      obtain ⟨pz, hpzmem, hpz2⟩ := assocGet_mem habs
      rw [← hpz2]
      exact hres pz hpzmem
    exact resolve_literal_of_missing_field hk hph hparts habs (navigate_result_none hl rest)

/-- Fixture: a dependency-free hypothesis task. -/
def taskA : AgentTask :=
  { task_id := "task_1", agent_id := "a1", agent_name := "hypothesis_agent",
    skill_name := "generate_hypotheses",
    input_data := [("literature_summary", Val.str "prompt")], depends_on := [] }

/-- Fixture: a task depending on `task_1` with a planner-style placeholder. -/
def taskB : AgentTask :=
  { task_id := "task_2", agent_id := "a2", agent_name := "experiment_agent",
    skill_name := "design_experiment",
    input_data := [("hypothesis", Val.str "\x7b\x7btask_1.result\x7d\x7d")],
    depends_on := ["task_1"] }

/-- Fixture: an agent oracle whose call for `task_1` raises and succeeds for
every other task. -/
def failFirstCall (t : AgentTask) (_ : List (String × Val)) : Except String Val :=
  if t.task_id == "task_1" then Except.error "boom"
  else Except.ok (Val.dict [("status", Val.str "success")])

/-- Final state of `execute_tasks failFirstCall [taskA, taskB]`. -/
def stC1 : ExecState :=
  { completed := ["task_1", "task_2"],
    results := [("task_2", Val.dict [("status", Val.str "success")])],
    statuses := [("task_1", TaskOutcome.failed "boom"),
                 ("task_2", TaskOutcome.completed (Val.dict [("status", Val.str "success")]))],
    dispatched := ["task_1", "task_2"] }

/-- Final state of `execute_tasks failFirstCall [taskA]`. -/
def stC2 : ExecState :=
  { completed := ["task_1"], results := [],
    statuses := [("task_1", TaskOutcome.failed "boom")], dispatched := ["task_1"] }

/-- Fixture: upstream task whose stored result will only contain `raw_output`. -/
def taskUp : AgentTask :=
  { task_id := "task_1", agent_id := "a3", agent_name := "code_gen_agent",
    skill_name := "generate_code", input_data := [], depends_on := [] }

/-- Fixture: downstream task whose placeholder references field `code` on the
upstream result. -/
def taskDown : AgentTask :=
  { task_id := "task_2", agent_id := "a4", agent_name := "execution_agent",
    skill_name := "execute_experiment",
    input_data := [("code", Val.str "\x7b\x7btask_1.code\x7d\x7d")],
    depends_on := ["task_1"] }

/-- Fixture: oracle that gives `task_1` a result without a `code` field and
echoes back the concrete parameters any later task was dispatched with. -/
def probeCall (t : AgentTask) (resolved : List (String × Val)) : Except String Val :=
  if t.task_id == "task_1" then Except.ok (Val.dict [("raw_output", Val.str "stub output")])
  else Except.ok (Val.dict [("status", Val.str "success"), ("echo", Val.dict resolved)])

/-- Fixture: a task depending on a task id no task carries. -/
def badDepTask : AgentTask :=
  { task_id := "task_1", agent_id := "a1", agent_name := "hypothesis_agent",
    skill_name := "generate_hypotheses", input_data := [], depends_on := ["task_999"] }

/-- Fixture: enabled-agent roster with only the hypothesis and analysis
agents (experiment, code-generation and execution agents disabled). -/
def twoAgentMap : List (String × String) :=
  [("hypothesis_agent", "a1"), ("analysis_agent", "a5")]

/-- The hypothesis task the planner produces for `twoAgentMap`. -/
def planHypTask : AgentTask :=
  { task_id := "task_1", agent_id := "a1", agent_name := "hypothesis_agent",
    skill_name := "generate_hypotheses",
    input_data := hypothesisInput "prompt", depends_on := [] }

/-- The analysis task the planner produces for `twoAgentMap`: its id is
`task_2` (the counter reaches only 2) while its hard-coded dependency list
still names `task_2` and `task_4`. -/
def planAnalysisTask : AgentTask :=
  { task_id := "task_2", agent_id := "a5", agent_name := "analysis_agent",
    skill_name := "analyze_results",
    input_data := analysisInput, depends_on := ["task_1", "task_2", "task_4"] }

/-- The stub payload of the hypothesis agent for `taskA`. -/
def stubHypResponse : Val :=
  getStubResponse "hypothesis_agent" "generate_hypotheses"
    [("literature_summary", Val.str "prompt")]

/-- Final state of `execute_tasks stubModeCall [taskA]`. -/
def stC9 : ExecState :=
  { completed := ["task_1"], results := [("task_1", stubHypResponse)],
    statuses := [("task_1", TaskOutcome.completed stubHypResponse)],
    dispatched := ["task_1"] }

/-- Claim C1, counterexample: in `execute_tasks failFirstCall [taskA, taskB]`
task `task_2` depends on `task_1` and `task_1` ends `failed`, yet `task_2` is
dispatched in the second wave and ends `completed` — the executor adds failed
ids to `completed_tasks`, so dependents of a failed task become ready; no
`skipped-due-to-upstream-failure` status exists anywhere in the code. -/
theorem failed_upstream_dependent_still_runs_cex :
    taskA.task_id ∈ taskB.depends_on ∧
    runStatusTag (execute_tasks failFirstCall [taskA, taskB]) "task_1" = some "failed" ∧
    runDispatched (execute_tasks failFirstCall [taskA, taskB]) = some ["task_1", "task_2"] ∧
    runStatusTag (execute_tasks failFirstCall [taskA, taskB]) "task_2" = some "completed" :=
  ⟨by decide, by decide, by decide, by decide⟩

/-- Claim C1, amended: when task B lists task A among its dependencies and A
ends `failed`, B is nevertheless dispatched (`_execute_task` is invoked for
it), because failed ids join the completed set; every task ends `completed`
or `failed` — no skip state exists. -/
theorem failed_upstream_dependent_dispatched
    (call : AgentTask → List (String × Val) → Except String Val)
    (tasks : List AgentTask) (A B : AgentTask) (st : ExecState) (e : String)
    (_hA : A ∈ tasks) (hB : B ∈ tasks) (_hdep : A.task_id ∈ B.depends_on)
    (hrun : execute_tasks call tasks = some (Except.ok st))
    (_hfail : assocGet st.statuses A.task_id = some (TaskOutcome.failed e)) :
    B.task_id ∈ st.dispatched :=
  execute_tasks_ok_all_dispatched hrun B hB

/-- Witness for the amended C1 theorem at the concrete two-task run. -/
theorem failed_upstream_dependent_dispatched_witness :
    taskB.task_id ∈ stC1.dispatched :=
  failed_upstream_dependent_dispatched failFirstCall [taskA, taskB] taskA taskB stC1 "boom"
    (List.mem_cons_self _ _) (List.mem_cons_of_mem _ (List.mem_cons_self _ _))
    (by decide) rfl rfl

/-- Claim C2, counterexample: a run whose only task ends `failed` still
finalizes the session as `completed`, because `_execute_tasks` returns
normally and `execute_research_workflow` sets `failed` only when an exception
propagates. -/
theorem session_completed_despite_task_failure_cex :
    runStatusTag (execute_tasks failFirstCall [taskA]) "task_1" = some "failed" ∧
    execute_research_workflow failFirstCall "active" [taskA] = "completed" :=
  ⟨by decide, by decide⟩

/-- Claim C2, amended: the session's final status is `completed` whenever
`_execute_tasks` returns normally — task-level failures included — and
`failed` exactly when it raises (the dependency deadlock). -/
theorem session_status_exception_driven
    (call : AgentTask → List (String × Val) → Except String Val)
    (prior : String) (tasks : List AgentTask) (st : ExecState)
    (pz : List String × ExecState) :
    (execute_tasks call tasks = some (Except.ok st) →
      execute_research_workflow call prior tasks = "completed") ∧
    (execute_tasks call tasks = some (Except.error pz) →
      execute_research_workflow call prior tasks = "failed") := by
  constructor <;> intro h <;> unfold execute_research_workflow <;> rw [h]

/-- Witness for the amended C2 theorem at the concrete one-task run. -/
theorem session_status_exception_driven_witness :
    execute_research_workflow failFirstCall "active" [taskA] = "completed" :=
  (session_status_exception_driven failFirstCall "active" [taskA] stC2 ([], stC2)).1 rfl

/-- Claim C3, evaluation at the failing roster: with only the hypothesis and
analysis agents enabled the planner numbers the analysis task `task_2` but
wires its hard-coded dependency list `task_1, task_2, task_4`; the hypothesis
task completes, the analysis task is never dispatched, and the run aborts
with a dependency deadlock, so the session ends `failed` — not `completed`
as the claim states. -/
theorem two_agent_roster_deadlocks :
    plan_research_tasks twoAgentMap "prompt" "sid" = [planHypTask, planAnalysisTask] ∧
    planAnalysisTask.depends_on = ["task_1", "task_2", "task_4"] ∧
    runStatusTag (execute_tasks stubModeCall
      (plan_research_tasks twoAgentMap "prompt" "sid")) "task_1" = some "completed" ∧
    runDispatched (execute_tasks stubModeCall
      (plan_research_tasks twoAgentMap "prompt" "sid")) = some ["task_1"] ∧
    runPending (execute_tasks stubModeCall
      (plan_research_tasks twoAgentMap "prompt" "sid")) = some ["task_2"] ∧
    execute_research_workflow stubModeCall "active"
      (plan_research_tasks twoAgentMap "prompt" "sid") = "failed" :=
  ⟨rfl, rfl, by decide, by decide, by decide, by decide⟩

/-- Claim C4: `_execute_tasks` terminates on every finite task list — with
`length tasks + 1` fuel the loop never exhausts its fuel, because every
iteration either settles at least one ready task (strictly growing the
completed set, bounded by the number of tasks) or raises the deadlock error;
in particular a dependency on a nonexistent task id raises the deadlock
(pending `task_1`) instead of hanging. -/
theorem executor_terminates :
    (∀ (call : AgentTask → List (String × Val) → Except String Val)
       (tasks : List AgentTask), (execute_tasks call tasks).isSome = true) ∧
    runPending (execute_tasks stubModeCall [badDepTask]) = some ["task_1"] :=
  ⟨execute_tasks_isSome, by decide⟩

/-- Claim C5: a placeholder whose referenced task is present in the result
map but whose field path does not navigate to a value is bound to the
original literal placeholder string (the resolver is total — nothing
raises), and the owning task is still dispatched: in the concrete scenario,
`task_2`'s placeholder references field `code` on an upstream result that
only contains `raw_output`, the concrete parameter received downstream is
the literal placeholder text, and `task_2` is dispatched and completes. -/
theorem resolver_missing_field_keeps_literal
    (input results : List (String × Val)) (k tid s : String) (rest : List String) (r : Val)
    (hk : assocGet input k = some (Val.str s)) (hph : isPlaceholder s = true)
    (hparts : refParts s = tid :: rest)
    (hfound : assocGet results tid = some r)
    (hnav : navigate (some r) rest = Option.none) :
    assocGet (resolve_placeholders input results) k = some (Val.str s) ∧
    (runDispatched (execute_tasks probeCall [taskUp, taskDown]) = some ["task_1", "task_2"] ∧
     runResultOf (execute_tasks probeCall [taskUp, taskDown]) "task_2" =
       some (Val.dict [("status", Val.str "success"),
                       ("echo", Val.dict [("code", Val.str "\x7b\x7btask_1.code\x7d\x7d")])]) ∧
     runStatusTag (execute_tasks probeCall [taskUp, taskDown]) "task_2" = some "completed") :=
  ⟨resolve_literal_of_missing_field hk hph hparts hfound hnav, by decide, rfl, by decide⟩

/-- Witness for the C5 theorem at the concrete missing-field input. -/
theorem resolver_missing_field_keeps_literal_witness :
    assocGet (resolve_placeholders [("code", Val.str "\x7b\x7btask_1.code\x7d\x7d")]
      [("task_1", Val.dict [("raw_output", Val.str "stub output")])]) "code" =
      some (Val.str "\x7b\x7btask_1.code\x7d\x7d") :=
  (resolver_missing_field_keeps_literal
    [("code", Val.str "\x7b\x7btask_1.code\x7d\x7d")]
    [("task_1", Val.dict [("raw_output", Val.str "stub output")])]
    "code" "task_1" "\x7b\x7btask_1.code\x7d\x7d" ["code"]
    (Val.dict [("raw_output", Val.str "stub output")])
    rfl (by decide) (by decide) rfl rfl).1

/-- Claim C6, counterexample: a placeholder whose referenced task id is
absent from the result map entirely does NOT raise — `_resolve_placeholders`
returns normally with the literal placeholder substituted, exactly as in the
missing-field case (the navigation loop turns the failed `results.get` into
`None` and the final fallback keeps the literal). -/
theorem resolver_missing_task_returns_literal_cex :
    resolve_placeholders [("x", Val.str "\x7b\x7btask_9.result\x7d\x7d")] [] =
      [("x", Val.str "\x7b\x7btask_9.result\x7d\x7d")] := rfl

/-- Claim C6, amended: when the referenced task id is absent from the result
map, `_resolve_placeholders` degrades to literal substitution identically to
the missing-field case; it never raises (the embedding is total). -/
theorem resolver_missing_task_keeps_literal
    (input results : List (String × Val)) (k tid s : String) (rest : List String)
    (hk : assocGet input k = some (Val.str s)) (hph : isPlaceholder s = true)
    (hparts : refParts s = tid :: rest)
    (habs : assocGet results tid = Option.none) :
    assocGet (resolve_placeholders input results) k = some (Val.str s) :=
  resolve_literal_of_missing_task hk hph hparts habs

/-- Witness for the amended C6 theorem at the concrete absent-task input. -/
theorem resolver_missing_task_keeps_literal_witness :
    assocGet (resolve_placeholders [("x", Val.str "\x7b\x7btask_9.result\x7d\x7d")] []) "x" =
      some (Val.str "\x7b\x7btask_9.result\x7d\x7d") :=
  resolver_missing_task_keeps_literal
    [("x", Val.str "\x7b\x7btask_9.result\x7d\x7d")] [] "x" "task_9"
    "\x7b\x7btask_9.result\x7d\x7d" ["result"] rfl (by decide) (by decide) rfl

/-- Claim C7, counterexample: against a session already in the terminal
status `failed`, adding a session memory succeeds (only `archived` is
guarded) and the research workflow runs to completion — neither operation is
rejected. -/
theorem terminal_status_not_rejected_cex :
    create_session_memory (some "failed") = MemoryOutcome.created ∧
    execute_research_workflow stubModeCall "failed" [taskA] = "completed" :=
  ⟨rfl, by decide⟩

/-- Claim C7, amended: the only synchronous session-status rejection is the
`archived` check of `create_session_memory`; every non-archived status
(`failed` included) is accepted, and `execute_research_workflow` performs no
terminal-status check at all — its outcome is independent of the session's
prior status. -/
theorem status_guard_archived_only
    (s : String) (hs : s ≠ "archived") (p1 p2 : String)
    (call : AgentTask → List (String × Val) → Except String Val)
    (tasks : List AgentTask) :
    create_session_memory (some "archived") =
      MemoryOutcome.httpError 400 "Cannot add memories to archived session" ∧
    create_session_memory (some s) = MemoryOutcome.created ∧
    execute_research_workflow call p1 tasks = execute_research_workflow call p2 tasks := by
  refine ⟨rfl, ?_, rfl⟩
  have hbeq : (s == "archived") = false := by
    rw [beq_eq_false_iff_ne]
    exact hs
  simp [create_session_memory, hbeq]

/-- Witness for the amended C7 theorem at the `failed` status. -/
theorem status_guard_archived_only_witness :
    create_session_memory (some "failed") = MemoryOutcome.created :=
  (status_guard_archived_only "failed" (by decide) "active" "failed"
    stubModeCall []).2.1

/-- Claim C8: `A2AAgentClient.initialize` never raises — its outcome is a
total function of the ADK probe result — and every execution path ends with
`is_initialized = true`; when the probe raises, the client degrades to stub
mode (`use_adk = false`). -/
theorem client_init_always_succeeds (st0 : ClientState) (env : AdkEnv) (e : String) :
    (clientInit st0 env).is_initialized = true ∧
    (clientInit st0 (AdkEnv.raises e)).use_adk = false := by
  refine ⟨?_, rfl⟩
  cases env with
  | raises e' => rfl
  | ok hasAgent configured => cases hasAgent <;> rfl

/-- Claim C9: outside configured ADK mode — and likewise when the configured
ADK call raises, via the fallback — `call_skill` returns (without raising) a
dict whose `status` is `success`; consequently, in a stub-mode run of the
executor no settled task carries a `failed` outcome. -/
theorem stub_call_skill_reports_success
    (st : ClientState) (adkR : Except String Val) (sk : String)
    (inp : List (String × Val))
    (hmode : (st.use_adk && st.has_adk_service) = false ∨ ∃ e, adkR = Except.error e)
    (tasks : List AgentTask) (st' : ExecState) (id : String) (oc : TaskOutcome)
    (hrun : execute_tasks stubModeCall tasks = some (Except.ok st'))
    (hoc : assocGet st'.statuses id = some oc) :
    statusOf (call_skill st adkR sk inp) = some (Val.str "success") ∧
    outcomeTag oc = "completed" := by
  constructor
  · rcases hmode with h | ⟨e, rfl⟩
    · rw [call_skill_not_adk h, statusOf_stub]
    · rw [call_skill_adk_error, statusOf_stub]
  · have hall := execute_tasks_ok_statuses_completed (fun t i => ⟨_, rfl⟩) hrun
    obtain ⟨pz, hmem, hpz⟩ := assocGet_mem hoc
    rw [← hpz]
    exact hall pz hmem

/-- Witness for the C9 theorem at a stub client and the concrete stub run. -/
theorem stub_call_skill_reports_success_witness :
    statusOf (call_skill (stubClient "hypothesis_agent") (Except.error "boom")
      "generate_hypotheses" []) = some (Val.str "success") ∧
    outcomeTag (TaskOutcome.completed stubHypResponse) = "completed" :=
  stub_call_skill_reports_success (stubClient "hypothesis_agent") (Except.error "boom")
    "generate_hypotheses" [] (Or.inl rfl) [taskA] stC9 "task_1"
    (TaskOutcome.completed stubHypResponse) rfl rfl

/-- Claim C10: every placeholder the planner generates has a field path whose
first segment after the task id is `result`; no stub payload carries a
top-level `result` key; hence against any result map whose values all lack a
`result` key — the stub runs — every planner placeholder parameter resolves
to its own literal text. -/
theorem planner_result_paths_never_resolve
    (am : List (String × String)) (p sid : String) (t : AgentTask)
    (k s a sk : String) (inp results : List (String × Val))
    (hp : isPlaceholder p = false) (hs : isPlaceholder sid = false)
    (ht : t ∈ plan_research_tasks am p sid)
    (hk : assocGet t.input_data k = some (Val.str s))
    (hph : isPlaceholder s = true)
    (hres : ∀ pz ∈ results, lacksResultKey pz.2 = true) :
    ((refParts s).drop 1).head? = some "result" ∧
    lacksResultKey (getStubResponse a sk inp) = true ∧
    assocGet (resolve_placeholders t.input_data results) k = some (Val.str s) := by
  have hpath := plan_placeholder_path hp hs ht hk hph
  refine ⟨hpath, stub_lacks_result a sk inp, ?_⟩
  cases hparts : refParts s with
  | nil => rw [hparts] at hpath; simp at hpath
  | cons tid rest0 =>
    cases rest0 with
    | nil => rw [hparts] at hpath; simp at hpath
    | cons seg rest =>
      rw [hparts] at hpath
      simp at hpath
      subst hpath
      exact resolve_literal_of_result_path hres hk hph hparts

/-- Witness for the C10 theorem at the analysis task of the two-agent plan
and a stub result map. -/
theorem planner_result_paths_never_resolve_witness :
    ((refParts "\x7b\x7btask_1.result\x7d\x7d").drop 1).head? = some "result" ∧
    lacksResultKey (getStubResponse "hypothesis_agent" "generate_hypotheses" []) = true ∧
    assocGet (resolve_placeholders analysisInput [("task_1", stubHypResponse)]) "hypothesis" =
      some (Val.str "\x7b\x7btask_1.result\x7d\x7d") :=
  planner_result_paths_never_resolve twoAgentMap "prompt" "sid" planAnalysisTask
    "hypothesis" "\x7b\x7btask_1.result\x7d\x7d" "hypothesis_agent" "generate_hypotheses"
    [] [("task_1", stubHypResponse)] (by decide) (by decide)
    (by rw [(rfl : plan_research_tasks twoAgentMap "prompt" "sid" =
          [planHypTask, planAnalysisTask])]
        exact List.mem_cons_of_mem _ (List.mem_cons_self _ _))
    rfl (by decide)
    (by intro pz hpz
        rw [List.mem_singleton] at hpz
        subst hpz
        exact stub_lacks_result "hypothesis_agent" "generate_hypotheses"
          [("literature_summary", Val.str "prompt")])
